import Mathlib

/-!
# Verification of the FluidJournal GP training-and-serving pipeline

Shallow embedding of the core contracts of the repository's GP service
(`agentic_memory/gp-service/server.py`, `gp_trainer.py`, `gp_trainer_enhanced.py`):
instrument-name normalization, the fixed-width feature-vector coercion, the
heuristic confidence score, the model-store save/load restructuring, the
training state machine, and the prediction error-degradation policy.

Python floats are modelled by `ℚ` (plus an explicit NaN/Inf carrier `PyF`
where the source tests for them); scikit-learn fit/predict calls are external
library capabilities and are modelled as oracle outcomes (`Bool` / `Except`);
the Python builtin `hash` of a string is modelled as an arbitrary function of
the two floats whose string representation is hashed.
-/

namespace FluidJournal

/-! ## Python float model

Values flowing through `np.isnan` / `np.isinf` checks: a finite rational or
one of the non-finite IEEE values. -/

inductive PyF where
  | fin (q : ℚ)
  | nan
  | inf
  | ninf
deriving DecidableEq

def PyF.isNan : PyF → Bool
  | .nan => true
  | _ => false

def PyF.isInf : PyF → Bool
  | .inf => true
  | .ninf => true
  | _ => false

def PyF.isFinite : PyF → Bool
  | .fin _ => true
  | _ => false

def PyF.toQ : PyF → ℚ
  | .fin q => q
  | _ => 0

/-- IEEE-style `<`: any comparison involving NaN is false. -/
def PyF.lt : PyF → PyF → Bool
  | .nan, _ => false
  | _, .nan => false
  | .fin a, .fin b => a < b
  | .ninf, .ninf => false
  | .ninf, _ => true
  | _, .ninf => false
  | .inf, _ => false
  | .fin _, .inf => true

/-! ## Shared numpy-style statistics -/

def meanQ (xs : List ℚ) : ℚ := xs.sum / xs.length

def varQ (xs : List ℚ) : ℚ :=
  (xs.map (fun x => (x - meanQ xs) * (x - meanQ xs))).sum / xs.length

/-- `np.var` on a 1-D array: NaN as soon as any entry is non-finite. -/
def npVar (xs : List PyF) : PyF :=
  if xs.all PyF.isFinite then PyF.fin (varQ (xs.map PyF.toQ)) else PyF.nan

/-- Value of column `j` in each row (rows are rectangular in the data files). -/
def colVals (x : List (List ℚ)) (j : Nat) : List ℚ :=
  x.map (fun row => row.getD j 0)

def nColsOf (x : List (List ℚ)) : Nat := (x.headD []).length

def colMeans (x : List (List ℚ)) : List ℚ :=
  (List.range (nColsOf x)).map (fun j => meanQ (colVals x j))

def colVars (x : List (List ℚ)) : List ℚ :=
  (List.range (nColsOf x)).map (fun j => varQ (colVals x j))

namespace AgenticGP

/-! ## Instrument-name normalization (`server.py`, `normalize_instrument_name`)

The two `re.sub` calls are embedded directly.  For the pattern
`\s+(JAN|...|DEC)\d{2}` the greedy `\s+` never needs to backtrack to a shorter
whitespace run: a shorter run leaves a whitespace character where the month
letter must match, so a match at a position succeeds exactly when the *whole*
whitespace run is followed by a month name and two digits.  Likewise for
`\s+\d{4}` (whitespace is not a digit).  `re.sub` scans left to right and
resumes *after* each removed match (the junction created by a removal is not
rescanned), which the recursion below reproduces. -/

def isSpaceCh (c : Char) : Bool :=
  c = ' ' || c = '\t' || c = '\n' || c = '\r' || c = '\x0b' || c = '\x0c'

def isDigitCh (c : Char) : Bool :=
  '0' ≤ c && c ≤ '9'

def months : List (List Char) :=
  [['J','A','N'], ['F','E','B'], ['M','A','R'], ['A','P','R'],
   ['M','A','Y'], ['J','U','N'], ['J','U','L'], ['A','U','G'],
   ['S','E','P'], ['O','C','T'], ['N','O','V'], ['D','E','C']]

def dropPrefixCh : List Char → List Char → Option (List Char)
  | [], cs => some cs
  | _ :: _, [] => none
  | p :: ps, c :: cs => if c = p then dropPrefixCh ps cs else none

/-- Remainder after a month name at the head, if one matches. -/
def monthRest (cs : List Char) : Option (List Char) :=
  months.foldl
    (fun acc m => match acc with
      | some r => some r
      | none => dropPrefixCh m cs)
    none

def spanSpaces : List Char → List Char × List Char
  | [] => ([], [])
  | c :: cs =>
    if isSpaceCh c then
      let (s, r) := spanSpaces cs
      (c :: s, r)
    else ([], c :: cs)

/-- Match of `\s+(JAN|...|DEC)\d{2}` at the head; returns the remainder. -/
def matchMonthPat (cs : List Char) : Option (List Char) :=
  let (sp, rest) := spanSpaces cs
  if sp.isEmpty then none
  else
    match monthRest rest with
    | none => none
    | some r2 =>
      match r2 with
      | d1 :: d2 :: r3 => if isDigitCh d1 && isDigitCh d2 then some r3 else none
      | _ => none

/-- Match of `\s+\d{4}` at the head; returns the remainder. -/
def matchYearPat (cs : List Char) : Option (List Char) :=
  let (sp, rest) := spanSpaces cs
  if sp.isEmpty then none
  else
    match rest with
    | d1 :: d2 :: d3 :: d4 :: r =>
      if isDigitCh d1 && isDigitCh d2 && isDigitCh d3 && isDigitCh d4 then some r else none
    | _ => none

/-- `re.sub(pat, '', s)`: remove every non-overlapping match, scanning left to
right and resuming after each match.  Every match consumes at least one
character, so `cs.length` steps of fuel always suffice. -/
def subAllFuel (m : List Char → Option (List Char)) : Nat → List Char → List Char
  | 0, cs => cs
  | _ + 1, [] => []
  | fuel + 1, c :: rest =>
    match m (c :: rest) with
    | some r => subAllFuel m fuel r
    | none => c :: subAllFuel m fuel rest

def subAll (m : List Char → Option (List Char)) (cs : List Char) : List Char :=
  subAllFuel m cs.length cs

/-- Python `str.strip()`. -/
def stripCh (cs : List Char) : List Char :=
  ((cs.dropWhile isSpaceCh).reverse.dropWhile isSpaceCh).reverse

/-- `AgenticGP.normalize_instrument_name` on a string: remove
`\s+(JAN|...|DEC)\d{2}`, then `\s+\d{4}`, then strip. -/
def normalize_instrument_name (s : String) : String :=
  ⟨stripCh (subAll matchYearPat (subAll matchMonthPat s.toList))⟩

/-! ## Feature-vector normalizer (`server.py`, `AgenticGP.predict`, lines 161-197)

The incoming `features` value is either a named map (Python dict) or an
already-ordered array.  A dict is ordered by the model's recorded
`feature_names` (absent names contribute `0`), or by its own sorted keys when
the model records none; the resulting flat vector is then coerced to the fixed
expected width 100 by trailing-zero padding or tail truncation. -/

inductive FeatIn where
  | dict (m : List (String × ℚ))
  | arr (xs : List ℚ)

/-- Insertion sort on strings, modelling Python's `sorted` (any sorted order
works: the source only relies on the order being deterministic). -/
def insertSorted (x : String) : List String → List String
  | [] => [x]
  | y :: ys => if x ≤ y then x :: y :: ys else y :: insertSorted x ys

def sortStrings (xs : List String) : List String :=
  xs.foldr insertSorted []

/-- Dict/array to flat vector, in the canonical order (lines 161-177). -/
def featuresToArray (f : FeatIn) (modelFeatureNames : Option (List String)) : List ℚ :=
  match f with
  | .arr xs => xs
  | .dict m =>
    match modelFeatureNames with
    | some ns => ns.map (fun n => (m.lookup n).getD 0)
    | none => (sortStrings (m.map Prod.fst)).map (fun n => (m.lookup n).getD 0)

def EXPECTED_FEATURES : Nat := 100

/-- Coercion to the fixed expected width (lines 183-197): zero-pad if shorter,
truncate from the tail if longer. -/
def coerceExpected (xs : List ℚ) : List ℚ :=
  if xs.length < EXPECTED_FEATURES then
    xs ++ List.replicate (EXPECTED_FEATURES - xs.length) 0
  else if EXPECTED_FEATURES < xs.length then
    xs.take EXPECTED_FEATURES
  else xs

/-! ## Confidence scoring (`server.py`, `AgenticGP.calculate_confidence`)

All float literals become the corresponding rationals.  The Python builtin
`hash(str(pnl_mean) + str(pnl_std))` is a fixed but unspecified function of
the pair `(pnl_mean, pnl_std)` within one process; it is abstracted as a
function argument `hashFn`.  Python's `% 100` on a possibly negative hash is
Lean's `Int.emod`, which also yields a value in `[0, 100)`. -/

/-- Uncertainty component (lines 292-297): piecewise linear in `pnl_std`. -/
def uncertaintyConfidence (pnl_std : ℚ) : ℚ :=
  if pnl_std < 20 then 9/10 - (pnl_std / 20) * (2/10)
  else if pnl_std < 50 then 7/10 - ((pnl_std - 20) / 30) * (4/10)
  else 3/10 - ((pnl_std - 50) / 50) * (2/10)

/-- Return/risk component (lines 299-322). -/
def returnConfidence (pnl_mean pnl_std : ℚ) : ℚ :=
  if 0 < pnl_std then
    let sharpe_like := pnl_mean / pnl_std
    if 10 < pnl_mean then
      if 1/2 < sharpe_like then 8/10 + min (15/100) (sharpe_like * (1/10))
      else if 0 < sharpe_like then 6/10 + sharpe_like * (4/10)
      else 1/2
    else if |pnl_mean| ≤ 10 then 4/10 + sharpe_like * (2/10)
    else if sharpe_like < -(1/2) then 2/10 - min (1/10) (|sharpe_like| * (5/100))
    else 3/10 + (sharpe_like + 1/2) * (2/10)
  else 1/2

/-- Model-certainty component (lines 324-336); `none` models the
`hasattr(self, '_current_model_sample_count')` check failing. -/
def modelConfidence : Option Nat → ℚ
  | none => 1/2
  | some n =>
    if 1000 < n then 8/10
    else if 500 < n then 7/10
    else if 100 < n then 6/10
    else 4/10

/-- Noise term (line 344): `(hash(...) % 100 - 50) / 5000.0`.  Lean's `%` on
`ℤ` is Euclidean, which agrees with Python's floor-mod for the positive
modulus 100. -/
def noiseOf (h : ℤ) : ℚ := ((h % 100 - 50 : ℤ) : ℚ) / 5000

/-- `AgenticGP.calculate_confidence` (lines 283-352): weighted combination
plus hash-derived noise, clamped to `[0.1, 0.95]`. -/
def calculate_confidence (hashFn : ℚ → ℚ → ℤ) (pnl_std pnl_mean : ℚ)
    (sample_count : Option Nat) : ℚ :=
  let confidence := 35/100 * uncertaintyConfidence pnl_std
    + 45/100 * returnConfidence pnl_mean pnl_std
    + 20/100 * modelConfidence sample_count
  let confidence := confidence + noiseOf (hashFn pnl_mean pnl_std)
  max (1/10) (min (95/100) confidence)

/-! ## Model bundle and persistence (`server.py`, `save_model` / `load_model`)

A persisted/in-memory bundle is the Python dict; optional keys are `Option`
fields (`none` = key absent).  The three GP objects are external scikit-learn
values: `has_pnl_gp` records whether the key `'pnl_gp'` is present (it always
is for bundles produced by this repository, which is what makes the
`'pnl_gp' in loaded_data` shape test classify *every* bundle as
trainer-shaped).  `joblib.dump`/`joblib.load` round-trips a dict unchanged, so
saving then loading applies `load_model` to the very value that was saved. -/

inductive ScalerSt where
  | unfitted
  | fitted (mean scale : List ℚ)
deriving DecidableEq

/-- `StandardScaler.fit` / `fit_transform`: the stored parameters are the
per-column statistics of the matrix it was (re)fitted on. -/
def fitScaler (x : List (List ℚ)) : ScalerSt :=
  .fitted (colMeans x) (colVars x)

structure Bundle where
  has_pnl_gp : Bool
  trained : Option Bool
  last_updated : Option Nat
  sample_count : Option Nat
  feature_selector : Option (List Bool)
  removed_features : Option (List Nat)
  feature_names : Option (List String)
  training_info_n_samples : Option Nat
  scaler_field : Option ScalerSt
deriving DecidableEq

/-- The dict built by `initialize_model` (lines 90-97). -/
def freshBundle : Bundle :=
  { has_pnl_gp := true, trained := some false, last_updated := none,
    sample_count := some 0, feature_selector := none, removed_features := none,
    feature_names := none, training_info_n_samples := none, scaler_field := none }

/-- `AgenticGP.load_model` (lines 388-421), after both files were found: the
bundle file's dict is restructured when it contains `'pnl_gp'` (sample count
taken from `training_info.n_samples`, default 0; `last_updated` set to now),
and taken as-is otherwise; the scaler file is always loaded verbatim. -/
def load_model (b : Bundle) (diskScaler : ScalerSt) (now : Nat) : Bundle × ScalerSt :=
  if b.has_pnl_gp then
    ({ has_pnl_gp := true, trained := some true, last_updated := some now,
       sample_count := some (b.training_info_n_samples.getD 0),
       feature_selector := b.feature_selector,
       removed_features := b.removed_features,
       feature_names := b.feature_names,
       training_info_n_samples := none, scaler_field := none }, diskScaler)
  else (b, diskScaler)

/-! ## Server training entry point (`server.py`, `AgenticGP.train_model`)

State: the `models` and `scalers` registries plus the set of files written by
`save_model`.  The scikit-learn `fit` calls are external: whether each raises
is an oracle flag.  Crucially, `fit_transform` on the stored scaler happens
*before* the `try` block, and `save_model` (which writes both files) happens
*inside* it, after all fits and the metadata update. -/

structure GPState where
  models : String → Option Bundle
  scalers : String → Option ScalerSt
  files : List String

structure ServerFits where
  pnlOk : Bool
  trajOk : Bool
  riskOk : Bool

/-- `AgenticGP.initialize_model` (lines 52-102): create a fresh untrained
bundle and an unfitted scaler only when the key is absent. -/
def initModel (st : GPState) (key : String) : GPState :=
  match st.models key with
  | some _ => st
  | none =>
    { st with
      models := fun k => if k = key then some freshBundle else st.models k,
      scalers := fun k => if k = key then some ScalerSt.unfitted else st.scalers k }

/-- `AgenticGP.save_model` (lines 367-376): write the bundle file and the
scaler file for the key. -/
def save_model_files (st : GPState) (key : String) : GPState :=
  { st with files := st.files ++ [key ++ "_models.joblib", key ++ "_scaler.joblib"] }

/-- `AgenticGP.train_model` (lines 104-150).  `hasTraj`/`hasRisk` model the
`targets is not None and len(targets) > 0` guards; `fits` records which of the
attempted scikit-learn `fit` calls succeed (an exception anywhere inside the
`try` is caught and turned into `False`). -/
def train_model (st : GPState) (key : String) (features : List (List ℚ))
    (hasTraj hasRisk : Bool) (fits : ServerFits) (now : Nat) : GPState × Bool :=
  let st1 := initModel st key
  -- features_scaled = self.scalers[key].fit_transform(features)  (before the try)
  let st2 := { st1 with
    scalers := fun k => if k = key then some (fitScaler features) else st1.scalers k }
  if fits.pnlOk = false then (st2, false)
  else if hasTraj && !fits.trajOk then (st2, false)
  else if hasRisk && !fits.riskOk then (st2, false)
  else
    let e := (st2.models key).getD freshBundle
    let e2 := { e with trained := some true, last_updated := some now,
                       sample_count := some features.length }
    let st3 := { st2 with models := fun k => if k = key then some e2 else st2.models k }
    (save_model_files st3 key, true)

/-! ## Prediction core (`server.py`, `AgenticGP.predict`, lines 216-281)

The part after preprocessing: the PnL prediction runs first; the trajectory
and risk predictions are each wrapped in a bare `try/except: pass`, so their
failures only leave the corresponding field `None`; any other exception (in
particular a PnL-model failure) is logged and re-raised by the outer handler.
Each sub-model's outcome is an oracle `Except` value. -/

structure Prediction where
  pnl_mean : ℚ
  pnl_std : ℚ
  ci_lo : ℚ
  ci_hi : ℚ
  trajectory_mean : Option (List ℚ)
  trajectory_std : Option (List ℚ)
  suggested_sl : Option ℚ
  suggested_tp : Option ℚ
  confidence : ℚ
  sample_count : Nat

def predictCore (hashFn : ℚ → ℚ → ℤ) (sample_count : Nat)
    (pnlPred : Except Unit (ℚ × ℚ))
    (trajPred : Option (Except Unit (List ℚ)))
    (riskPred : Option (Except Unit (ℚ × ℚ))) : Except Unit Prediction :=
  match pnlPred with
  | .error e => .error e
  | .ok (pnl_mean, pnl_std) =>
    let trajectory_mean : Option (List ℚ) :=
      match trajPred with
      | some (.ok t) => some t
      | _ => none
    let trajectory_std : Option (List ℚ) :=
      trajectory_mean.map (fun t => t.map (fun _ => pnl_std * (1/2)))
    let risk_mean : Option (ℚ × ℚ) :=
      match riskPred with
      | some (.ok r) => some r
      | _ => none
    let confidence := calculate_confidence hashFn pnl_std pnl_mean (some sample_count)
    .ok { pnl_mean := pnl_mean, pnl_std := pnl_std,
          ci_lo := pnl_mean - (196/100) * pnl_std,
          ci_hi := pnl_mean + (196/100) * pnl_std,
          trajectory_mean := trajectory_mean, trajectory_std := trajectory_std,
          suggested_sl := risk_mean.map Prod.fst,
          suggested_tp := risk_mean.map Prod.snd,
          confidence := confidence, sample_count := sample_count }

end AgenticGP

namespace EnhancedGPTrainer

/-! ## Enhanced trainer (`gp_trainer_enhanced.py`) -/

/-- `EnhancedGPTrainer.validate_data` (lines 198-227): minimum sample count,
then PnL variance against `1e-6` (an IEEE `<`, false on NaN), then NaN/Inf
scans of features and PnL targets. -/
def validate_data (features : List (List PyF)) (pnl_targets : List PyF) : Bool :=
  if features.length < 20 then false
  else if PyF.lt (npVar pnl_targets) (PyF.fin (1/1000000)) then false
  else if (features.any (fun row => row.any PyF.isNan))
       || (features.any (fun row => row.any PyF.isInf)) then false
  else if pnl_targets.any PyF.isNan || pnl_targets.any PyF.isInf then false
  else true

structure TrainData where
  features : List (List PyF)
  pnl_targets : List PyF
  trajectory_targets : List (List PyF)
  risk_targets : List (List PyF)

/-- Outcomes of the external scikit-learn `fit` calls for one job. -/
structure EnhOracle where
  pnlFitOk : Bool
  trajFitOk : Bool
  riskFitOk : Bool

def qRows (rows : List (List PyF)) : List (List ℚ) :=
  rows.map (fun row => row.map PyF.toQ)

/-- `VarianceThreshold(threshold=1e-10)` support mask: keep columns whose
variance strictly exceeds the threshold. -/
def keptMask (x : List (List ℚ)) : List Bool :=
  (List.range (nColsOf x)).map (fun j => decide ((1/10000000000 : ℚ) < varQ (colVals x j)))

/-- `train_pnl_gp` (lines 229-336) returns `None` either from its own
zero-variance pre-check or when the fit (or evaluation) raises, which the
surrounding `try` catches. -/
def train_pnl_gp_ok (pnl_targets : List PyF) (o : EnhOracle) : Bool :=
  !(PyF.lt (npVar pnl_targets) (PyF.fin (1/1000000))) && o.pnlFitOk

structure TrainOutcome where
  success : Bool
  modelFileWritten : Bool
  scalerFileWritten : Bool
deriving DecidableEq

def aborted : TrainOutcome := ⟨false, false, false⟩

/-- `EnhancedGPTrainer.train_instrument_direction` (lines 426-501).  The whole
body sits in a `try/except` that returns `False`, so nothing ever propagates
to the caller.  Order of effects: validation; `preprocess_features` (raises
when `VarianceThreshold` keeps no column, caught by the outer handler); the
PnL fit (its failure surfaces as `None`); the trajectory and risk fits (their
exceptions propagate to the outer handler); only then are the bundle file and
the standalone scaler file written. -/
def train_instrument_direction (d : TrainData) (o : EnhOracle) : TrainOutcome :=
  if validate_data d.features d.pnl_targets = false then aborted
  else if (keptMask (qRows d.features)).all (fun b => !b) then aborted
  else if train_pnl_gp_ok d.pnl_targets o = false then aborted
  else if o.trajFitOk = false then aborted
  else if o.riskFitOk = false then aborted
  else ⟨true, true, true⟩

end EnhancedGPTrainer

namespace GPTrainer

/-- `GPTrainer.validate_data` (`gp_trainer.py`, lines 82-113): minimum sample
count and NaN/Inf scans only.  Low feature variance and low PnL standard
deviation are *logged as warnings* but do not fail validation. -/
def validate_data (features : List (List PyF)) (pnl_targets : List PyF) : Bool :=
  if features.length < 20 then false
  else if (features.any (fun row => row.any PyF.isNan))
       || (features.any (fun row => row.any PyF.isInf)) then false
  else if pnl_targets.any PyF.isNan || pnl_targets.any PyF.isInf then false
  else true

end GPTrainer

/-! ## Theorems -/

open AgenticGP

/-- C1: for every prediction input (feature map or array) put into the
canonical order — the model's recorded `feature_names`, or sorted keys as
fallback, with `0` substituted for absent names — the normalizer stage outputs
a vector of exactly the expected width 100: the ordered values followed by
trailing zeros when fewer than 100, and exactly the first 100 ordered values
(truncation from the tail) when more. -/
theorem C1_normalizer_fixed_width (f : FeatIn) (names : Option (List String)) :
    (coerceExpected (featuresToArray f names)).length = 100 ∧
    coerceExpected (featuresToArray f names) =
      (if (featuresToArray f names).length ≤ 100 then
        featuresToArray f names ++ List.replicate (100 - (featuresToArray f names).length) 0
       else (featuresToArray f names).take 100) := by
  generalize featuresToArray f names = xs
  unfold coerceExpected EXPECTED_FEATURES
  by_cases h1 : xs.length < 100
  · simp only [if_pos h1]
    refine ⟨?_, ?_⟩
    · simp only [List.length_append, List.length_replicate]
      omega
    · rw [if_pos (le_of_lt h1)]
  · by_cases h2 : 100 < xs.length
    · simp only [if_neg h1, if_pos h2]
      refine ⟨?_, ?_⟩
      · simp only [List.length_take]
        omega
      · rw [if_neg (by omega)]
    · have hlen : xs.length = 100 := by omega
      simp only [if_neg h1, if_neg h2]
      refine ⟨hlen, ?_⟩
      rw [if_pos (by omega), hlen]
      simp

/-- C2: for every finite input triple with `pnl_std ≥ 0` (including
`pnl_std = 0`) and every possible hash outcome, the confidence score lies in
the closed interval `[0.1, 0.95]`. -/
theorem C2_confidence_clamped (hashFn : ℚ → ℚ → ℤ) (pnl_mean pnl_std : ℚ)
    (sample_count : Option Nat) (h : 0 ≤ pnl_std) :
    1/10 ≤ calculate_confidence hashFn pnl_std pnl_mean sample_count ∧
    calculate_confidence hashFn pnl_std pnl_mean sample_count ≤ 95/100 := by
  unfold calculate_confidence
  exact ⟨le_max_left _ _, max_le (by norm_num) (min_le_left _ _)⟩

theorem C2_confidence_clamped_witness :
    (0 : ℚ) ≤ 0 ∧
    (1/10 ≤ calculate_confidence (fun _ _ => 0) 0 5 (some 30) ∧
     calculate_confidence (fun _ _ => 0) 0 5 (some 30) ≤ 95/100) :=
  ⟨le_refl 0, C2_confidence_clamped (fun _ _ => 0) 5 0 (some 30) (le_refl 0)⟩

/-- C7 counterexample: normalization is not idempotent.  `re.sub` does not
rescan the junction created by a removal, so
`"A JAN JAN2525" ↦ "A JAN25" ↦ "A"`. -/
theorem C7_idempotent_counterexample :
    normalize_instrument_name (normalize_instrument_name "A JAN JAN2525") ≠
      normalize_instrument_name "A JAN JAN2525" := by decide

/-- C7 amended: normalization is deterministic (a pure function of its input)
and behaves as claimed on the quoted examples — `"MGC AUG25" ↦ "MGC"`,
`"MGC" ↦ "MGC"` — and is idempotent on them; full idempotence fails on strings
where a removal splices a fresh contract suffix together. -/
theorem C7_examples_and_idempotence_there :
    normalize_instrument_name "MGC AUG25" = "MGC" ∧
    normalize_instrument_name "MGC" = "MGC" ∧
    normalize_instrument_name (normalize_instrument_name "MGC AUG25") =
      normalize_instrument_name "MGC AUG25" ∧
    normalize_instrument_name (normalize_instrument_name "MGC") =
      normalize_instrument_name "MGC" := by decide

/-! ### Confidence-band helpers -/

/-- `s1` and `s2` lie in the same uncertainty band `[0,20)`, `[20,50)` or
`[50,∞)` (stated for `s1 ≤ s2`). -/
def sameBand (s1 s2 : ℚ) : Prop :=
  s2 < 20 ∨ (20 ≤ s1 ∧ s2 < 50) ∨ 50 ≤ s1

lemma uC_band1 {s : ℚ} (h : s < 20) :
    uncertaintyConfidence s = 9/10 - (s / 20) * (2/10) := by
  unfold uncertaintyConfidence
  rw [if_pos h]

lemma uC_band2 {s : ℚ} (h1 : 20 ≤ s) (h2 : s < 50) :
    uncertaintyConfidence s = 7/10 - ((s - 20) / 30) * (4/10) := by
  unfold uncertaintyConfidence
  rw [if_neg (not_lt.mpr h1), if_pos h2]

lemma uC_band3 {s : ℚ} (h : 50 ≤ s) :
    uncertaintyConfidence s = 3/10 - ((s - 50) / 50) * (2/10) := by
  unfold uncertaintyConfidence
  rw [if_neg (not_lt.mpr (by linarith)), if_neg (not_lt.mpr h)]

lemma uC_strict_anti {s1 s2 : ℚ} (h12 : s1 < s2) (hband : sameBand s1 s2) :
    uncertaintyConfidence s2 < uncertaintyConfidence s1 := by
  rcases hband with hb | ⟨hb1, hb2⟩ | hb
  · rw [uC_band1 hb, uC_band1 (lt_trans h12 hb)]
    linarith
  · rw [uC_band2 (by linarith) hb2, uC_band2 hb1 (by linarith)]
    linarith
  · rw [uC_band3 (by linarith), uC_band3 hb]
    linarith

lemma uC_anti {s1 s2 : ℚ} (h12 : s1 ≤ s2) (hband : sameBand s1 s2) :
    uncertaintyConfidence s2 ≤ uncertaintyConfidence s1 := by
  rcases lt_or_eq_of_le h12 with h | h
  · exact le_of_lt (uC_strict_anti h hband)
  · rw [h]

lemma returnConf_zero_mean (s : ℚ) :
    returnConfidence 0 s = if 0 < s then 2/5 else 1/2 := by
  unfold returnConfidence
  by_cases h : 0 < s
  · rw [if_pos h, if_pos h]
    norm_num
  · rw [if_neg h, if_neg h]

/-- C9 counterexample: the uncertainty component is claimed to stay in
`[0.1, 0.3)` on the band `[50, ∞)`, but it keeps decreasing without a floor:
at `pnl_std = 150` it is `-0.1`.  (At `pnl_std = 20` it equals `0.7`, outside
the claimed `[0.3, 0.7)` as well.) -/
theorem C9_band_range_counterexample :
    ((50 : ℚ) ≤ 150 ∧ uncertaintyConfidence 150 < 1/10) ∧
    ((20 : ℚ) ≤ 20 ∧ (20 : ℚ) < 50 ∧ ¬ uncertaintyConfidence 20 < 7/10) := by
  refine ⟨⟨by norm_num, ?_⟩, ⟨by norm_num, by norm_num, ?_⟩⟩
  · rw [uC_band3 (by norm_num)]
    norm_num
  · rw [uC_band2 (by norm_num) (by norm_num)]
    norm_num

/-- C9 amended: the uncertainty component is strictly decreasing within each
band; on `[0,20)` it lies in `[0.7, 0.9]` (as claimed), on `[20,50)` it lies
in `(0.3, 0.7]` (the upper endpoint `0.7` is attained, at `pnl_std = 20`), and
on `[50,∞)` it only satisfies the upper bound `≤ 0.3`: it decreases without a
lower bound, leaving the claimed `[0.1, 0.3)` once `pnl_std` exceeds 100. -/
theorem C9_uncertainty_band_ranges (s s1 s2 : ℚ) :
    (0 ≤ s → s < 20 → 7/10 ≤ uncertaintyConfidence s ∧ uncertaintyConfidence s ≤ 9/10) ∧
    (20 ≤ s → s < 50 → 3/10 < uncertaintyConfidence s ∧ uncertaintyConfidence s ≤ 7/10) ∧
    (50 ≤ s → uncertaintyConfidence s ≤ 3/10) ∧
    (s1 < s2 → sameBand s1 s2 →
      uncertaintyConfidence s2 < uncertaintyConfidence s1) := by
  refine ⟨fun h0 h20 => ?_, fun h20 h50 => ?_, fun h50 => ?_,
    fun h12 hband => uC_strict_anti h12 hband⟩
  · rw [uC_band1 h20]
    constructor <;> linarith
  · rw [uC_band2 h20 h50]
    constructor <;> linarith
  · rw [uC_band3 h50]
    linarith

theorem C9_uncertainty_band_ranges_witness :
    (7/10 ≤ uncertaintyConfidence 10 ∧ uncertaintyConfidence 10 ≤ 9/10) ∧
    (3/10 < uncertaintyConfidence 30 ∧ uncertaintyConfidence 30 ≤ 7/10) ∧
    uncertaintyConfidence 60 ≤ 3/10 ∧
    uncertaintyConfidence 6 < uncertaintyConfidence 5 :=
  ⟨(C9_uncertainty_band_ranges 10 0 0).1 (by norm_num) (by norm_num),
   (C9_uncertainty_band_ranges 30 0 0).2.1 (by norm_num) (by norm_num),
   (C9_uncertainty_band_ranges 60 0 0).2.2.1 (by norm_num),
   (C9_uncertainty_band_ranges 0 5 6).2.2.2 (by norm_num) (Or.inl (by norm_num))⟩

/-- Evaluation helper: `calculate_confidence` at computed component values. -/
lemma calc_conf_eval {hashFn : ℚ → ℚ → ℤ} {s m : ℚ} {sc : Option Nat}
    {u r mc n v : ℚ}
    (hu : uncertaintyConfidence s = u) (hr : returnConfidence m s = r)
    (hmc : modelConfidence sc = mc) (hn : noiseOf (hashFn m s) = n)
    (hv : max (1/10) (min (95/100) (35/100 * u + 45/100 * r + 20/100 * mc + n)) = v) :
    calculate_confidence hashFn s m sc = v := by
  simp only [calculate_confidence]
  rw [hu, hr, hmc, hn, hv]

/-- The hash exhibited for the C8 counterexample: the process-wide string hash
is some fixed function of `(pnl_mean, pnl_std)`; this one maps the point with
`pnl_std = 5` to 99 and everything else to 0. -/
def badHash (_m s : ℚ) : ℤ := if s = 5 then 99 else 0

/-- C8 counterexample: with `pnl_mean = 0` and a fixed sample count, two
values of `pnl_std` in the same band can get different hash-derived jitter, so
the confidence at the larger `pnl_std` can exceed the confidence at the
smaller one.  The exhibited hash assigns `0` at `pnl_std = 4` (jitter `-0.01`)
and `99` at `pnl_std = 5` (jitter `+0.0098`): `0.551 < 0.5673`. -/
theorem C8_monotone_counterexample :
    (0 : ℚ) ≤ 4 ∧ (4 : ℚ) ≤ 5 ∧ (5 : ℚ) < 20 ∧
    calculate_confidence badHash 4 0 (some 50) <
      calculate_confidence badHash 5 0 (some 50) := by
  have hmc : modelConfidence (some 50) = 4/10 := by norm_num [modelConfidence]
  have hr4 : returnConfidence 0 4 = 2/5 := by
    rw [returnConf_zero_mean, if_pos (by norm_num : (0:ℚ) < 4)]
  have hr5 : returnConfidence 0 5 = 2/5 := by
    rw [returnConf_zero_mean, if_pos (by norm_num : (0:ℚ) < 5)]
  have hn4 : noiseOf (badHash 0 4) = -(1/100) := by
    have hb : badHash 0 4 = 0 := by norm_num [badHash]
    rw [hb]
    simp [noiseOf]
    norm_num
  have hn5 : noiseOf (badHash 0 5) = 49/5000 := by
    have hb : badHash 0 5 = 99 := by norm_num [badHash]
    rw [hb]
    have hm : (99 : ℤ) % 100 = 99 := by decide
    rw [noiseOf, hm]
    norm_num
  have h4 : calculate_confidence badHash 4 0 (some 50) = 551/1000 :=
    calc_conf_eval (uC_band1 (by norm_num)) hr4 hmc hn4
      (by rw [min_eq_right (by norm_num), max_eq_right (by norm_num)]; norm_num)
  have h5 : calculate_confidence badHash 5 0 (some 50) = 5673/10000 :=
    calc_conf_eval (uC_band1 (by norm_num)) hr5 hmc hn5
      (by rw [min_eq_right (by norm_num), max_eq_right (by norm_num)]; norm_num)
  refine ⟨by norm_num, by norm_num, by norm_num, ?_⟩
  rw [h4, h5]
  norm_num

/-- C8 amended: with `pnl_mean = 0` and `sample_count` fixed, the confidence
is monotonically non-increasing in `pnl_std` within each band, provided the
two points receive the same hash value (equivalently, ignoring the jitter);
the deterministic weighted sum alone is non-increasing, and only the jitter
can break the ordering. -/
theorem C8_monotone_within_band (hashFn : ℚ → ℚ → ℤ) (sample_count : Option Nat)
    (s1 s2 : ℚ) (h0 : 0 ≤ s1) (h12 : s1 ≤ s2) (hband : sameBand s1 s2)
    (hhash : hashFn 0 s1 = hashFn 0 s2) :
    calculate_confidence hashFn s2 0 sample_count ≤
      calculate_confidence hashFn s1 0 sample_count := by
  unfold calculate_confidence
  rw [← hhash]
  have hu := uC_anti h12 hband
  have hr : returnConfidence 0 s2 ≤ returnConfidence 0 s1 := by
    rw [returnConf_zero_mean, returnConf_zero_mean]
    split_ifs <;> linarith
  exact max_le_max (le_refl _) (min_le_min (le_refl _) (by linarith))

/-! ### Persistence round trip (C3) -/

/-- C3 counterexample: `joblib` round-trips the saved dict unchanged, so
loading applies the restructuring to the very dict that `save_model` wrote.
A service-shape bundle (nested `trained` flag, top-level `sample_count`, no
`training_info`) contains the key `'pnl_gp'`, so `load_model` classifies it as
trainer-shaped and resets `sample_count` to `training_info.n_samples`'s
default `0`: a bundle saved with `sample_count = 30` loads with
`sample_count = 0`. -/
theorem C3_roundtrip_counterexample :
    (load_model
      { has_pnl_gp := true, trained := some true, last_updated := some 5,
        sample_count := some 30, feature_selector := none,
        removed_features := none, feature_names := none,
        training_info_n_samples := none, scaler_field := none }
      ScalerSt.unfitted 7).1.sample_count ≠
      (Bundle.mk true (some true) (some 5) (some 30) none none none none
        none).sample_count := by
  decide

/-- C3 amended: saving and reloading preserves the feature-selector mask, the
feature names and the scaler (the scaler file is loaded verbatim) for both
on-disk shapes, and the non-`pnl_gp` shape is taken over unchanged; but the
reloaded `sample_count` always equals `training_info.n_samples` (default 0)
whenever the `'pnl_gp'` key is present — so it equals the saved count for the
trainer shape, while a service-shape bundle (which stores its count at top
level and has no `training_info`) reloads with `sample_count = 0`. -/
theorem C3_save_load_roundtrip (b : Bundle) (sc : ScalerSt) (now : Nat) :
    (load_model b sc now).2 = sc ∧
    (load_model b sc now).1.feature_selector = b.feature_selector ∧
    (load_model b sc now).1.feature_names = b.feature_names ∧
    (b.has_pnl_gp = true →
      (load_model b sc now).1.sample_count = some (b.training_info_n_samples.getD 0)) ∧
    (b.has_pnl_gp = false → (load_model b sc now).1 = b) := by
  by_cases h : b.has_pnl_gp = true
  · simp [load_model, h]
  · simp [load_model, h]

theorem C3_save_load_roundtrip_witness :
    (load_model
        ⟨true, none, none, none, some [true, false], none, some ["atr"], some 42, none⟩
        (ScalerSt.fitted [1] [2]) 9).2 = ScalerSt.fitted [1] [2] ∧
    (load_model
        ⟨true, none, none, none, some [true, false], none, some ["atr"], some 42, none⟩
        (ScalerSt.fitted [1] [2]) 9).1.feature_selector = some [true, false] ∧
    (load_model
        ⟨true, none, none, none, some [true, false], none, some ["atr"], some 42, none⟩
        (ScalerSt.fitted [1] [2]) 9).1.sample_count = some 42 :=
  ⟨(C3_save_load_roundtrip _ _ _).1, (C3_save_load_roundtrip _ _ _).2.1,
   (C3_save_load_roundtrip
      ⟨true, none, none, none, some [true, false], none, some ["atr"], some 42, none⟩
      (ScalerSt.fitted [1] [2]) 9).2.2.2.1 rfl⟩

/-! ### Trainer validation and atomic persistence (C4, C5) -/

lemma initModel_files (st : GPState) (key : String) :
    (initModel st key).files = st.files := by
  unfold initModel
  cases st.models key <;> rfl

/-- When at least one attempted scikit-learn fit fails, `train_model` stops
inside the `try`, returning the state whose only change is the refitted
scaler, and `False`. -/
lemma train_model_fail (st : GPState) (key : String) (features : List (List ℚ))
    (hasTraj hasRisk : Bool) (fits : ServerFits) (now : Nat)
    (hfail : fits.pnlOk = false ∨ (hasTraj = true ∧ fits.trajOk = false)
      ∨ (hasRisk = true ∧ fits.riskOk = false)) :
    train_model st key features hasTraj hasRisk fits now =
      ({ initModel st key with
          scalers := fun k =>
            if k = key then some (fitScaler features) else (initModel st key).scalers k },
        false) := by
  simp only [train_model]
  rcases hfail with h | ⟨h1, h2⟩ | ⟨h1, h2⟩
  · rw [if_pos h]
  · by_cases hp : fits.pnlOk = false
    · rw [if_pos hp]
    · rw [if_neg hp, if_pos (by simp [h1, h2])]
  · by_cases hp : fits.pnlOk = false
    · rw [if_pos hp]
    · rw [if_neg hp]
      by_cases ht : (hasTraj && !fits.trajOk) = true
      · rw [if_pos ht]
      · rw [if_neg ht, if_pos (by simp [h1, h2])]

lemma meanQ_replicate (n : Nat) (c : ℚ) (hn : n ≠ 0) :
    meanQ (List.replicate n c) = c := by
  simp only [meanQ, List.sum_replicate, nsmul_eq_mul, List.length_replicate]
  rw [mul_comm]
  exact mul_div_cancel_right₀ c (Nat.cast_ne_zero.mpr hn)

lemma varQ_replicate (n : Nat) (c : ℚ) (hn : n ≠ 0) :
    varQ (List.replicate n c) = 0 := by
  simp [varQ, List.map_replicate, meanQ_replicate n c hn, List.sum_replicate]

lemma npVar_replicate_const (n : Nat) (c : ℚ) (hn : n ≠ 0) :
    npVar (List.replicate n (PyF.fin c)) = PyF.fin 0 := by
  unfold npVar
  rw [if_pos (by simp [List.all_eq_true, List.mem_replicate, PyF.isFinite])]
  rw [List.map_replicate]
  show PyF.fin (varQ (List.replicate n c)) = PyF.fin 0
  rw [varQ_replicate n c hn]

lemma PyF_lt_fin (a b : ℚ) : PyF.lt (PyF.fin a) (PyF.fin b) = decide (a < b) := rfl

lemma lowvar_zero : PyF.lt (PyF.fin 0) (PyF.fin (1/1000000)) = true := by
  rw [PyF_lt_fin]
  simp only [decide_eq_true_eq]
  norm_num

/-- C4 counterexample: a dataset of 20 samples all with PnL `5` has variance
`0 < 1e-6`, yet the basic `GPTrainer.validate_data` *passes* it (it only logs
a warning for low PnL standard deviation): the `Loaded → Validated` transition
does not fail there. -/
theorem C4_basic_trainer_counterexample :
    PyF.lt (npVar (List.replicate 20 (PyF.fin 5))) (PyF.fin (1/1000000)) = true ∧
    GPTrainer.validate_data (List.replicate 20 [PyF.fin 1])
      (List.replicate 20 (PyF.fin 5)) = true := by
  constructor
  · rw [npVar_replicate_const 20 5 (by norm_num)]
    exact lowvar_zero
  · decide

/-- C4 amended: in the *enhanced* trainer, every training job whose PnL target
array has variance below `1e-6` fails validation and aborts with no bundle or
scaler file persisted and nothing raised to the caller (the embedding is a
total function returning an outcome); the basic `GPTrainer.validate_data`
does not perform this check — it only warns. -/
theorem C4_low_variance_aborts (d : EnhancedGPTrainer.TrainData)
    (o : EnhancedGPTrainer.EnhOracle)
    (hvar : PyF.lt (npVar d.pnl_targets) (PyF.fin (1/1000000)) = true) :
    EnhancedGPTrainer.validate_data d.features d.pnl_targets = false ∧
    EnhancedGPTrainer.train_instrument_direction d o = EnhancedGPTrainer.aborted := by
  have hv : EnhancedGPTrainer.validate_data d.features d.pnl_targets = false := by
    unfold EnhancedGPTrainer.validate_data
    split_ifs <;> rfl
  refine ⟨hv, ?_⟩
  unfold EnhancedGPTrainer.train_instrument_direction
  rw [hv, if_pos rfl]

theorem C4_low_variance_aborts_witness :
    EnhancedGPTrainer.validate_data (List.replicate 20 [PyF.fin 1])
      (List.replicate 20 (PyF.fin 5)) = false ∧
    EnhancedGPTrainer.train_instrument_direction
      ⟨List.replicate 20 [PyF.fin 1], List.replicate 20 (PyF.fin 5), [], []⟩
      ⟨true, true, true⟩ = EnhancedGPTrainer.aborted :=
  C4_low_variance_aborts
    ⟨List.replicate 20 [PyF.fin 1], List.replicate 20 (PyF.fin 5), [], []⟩
    ⟨true, true, true⟩
    (by
      have hshow : (EnhancedGPTrainer.TrainData.mk (List.replicate 20 [PyF.fin 1])
          (List.replicate 20 (PyF.fin 5)) [] []).pnl_targets
          = List.replicate 20 (PyF.fin 5) := rfl
      rw [hshow, npVar_replicate_const 20 5 (by norm_num)]
      exact lowvar_zero)

/-- C5: in both the enhanced trainer and the server's `train_model`, if any of
the (attempted) fit steps raises, the job aborts and neither the bundle file
nor the scaler file is written — the artifacts commit together or not at
all. -/
theorem C5_fit_failure_no_artifacts :
    (∀ (d : EnhancedGPTrainer.TrainData) (o : EnhancedGPTrainer.EnhOracle),
      (o.pnlFitOk = false ∨ o.trajFitOk = false ∨ o.riskFitOk = false) →
      EnhancedGPTrainer.train_instrument_direction d o = EnhancedGPTrainer.aborted) ∧
    (∀ (st : GPState) (key : String) (features : List (List ℚ))
        (hasTraj hasRisk : Bool) (fits : ServerFits) (now : Nat),
      (fits.pnlOk = false ∨ (hasTraj = true ∧ fits.trajOk = false)
        ∨ (hasRisk = true ∧ fits.riskOk = false)) →
      (train_model st key features hasTraj hasRisk fits now).2 = false ∧
      (train_model st key features hasTraj hasRisk fits now).1.files = st.files) := by
  constructor
  · intro d o hfail
    unfold EnhancedGPTrainer.train_instrument_direction
    split_ifs with h1 h2 h3 h4 h5
    any_goals rfl
    exfalso
    rcases hfail with h | h | h
    · exact h3 (by simp [EnhancedGPTrainer.train_pnl_gp_ok, h])
    · exact h4 h
    · exact h5 h
  · intro st key features hasTraj hasRisk fits now hfail
    rw [train_model_fail st key features hasTraj hasRisk fits now hfail]
    exact ⟨rfl, initModel_files st key⟩

theorem C5_fit_failure_no_artifacts_witness :
    EnhancedGPTrainer.train_instrument_direction
      ⟨[[PyF.fin 1]], [PyF.fin 0], [[PyF.fin 0]], [[PyF.fin 0]]⟩
      ⟨true, false, true⟩ = EnhancedGPTrainer.aborted ∧
    ((train_model ⟨fun _ => none, fun _ => none, []⟩ "MGC_long" [[1]] false false
        ⟨false, true, true⟩ 0).2 = false ∧
     (train_model ⟨fun _ => none, fun _ => none, []⟩ "MGC_long" [[1]] false false
        ⟨false, true, true⟩ 0).1.files = ([] : List String)) :=
  ⟨C5_fit_failure_no_artifacts.1 _ _ (Or.inr (Or.inl rfl)),
   C5_fit_failure_no_artifacts.2 ⟨fun _ => none, fun _ => none, []⟩ "MGC_long" [[1]]
     false false ⟨false, true, true⟩ 0 (Or.inl rfl)⟩

/-! ### Prediction degradation (C6) and retrain frame effect (C10) -/

/-- C6: on a trained model, a PnL-model failure propagates and aborts the
whole prediction, while a trajectory- or risk-model failure is swallowed and
only leaves the corresponding response field(s) null — the overall prediction
still succeeds. -/
theorem C6_secondary_failures_degrade (hashFn : ℚ → ℚ → ℤ) (n : Nat) (m s : ℚ)
    (trajPred : Option (Except Unit (List ℚ)))
    (riskPred : Option (Except Unit (ℚ × ℚ))) :
    predictCore hashFn n (Except.error ()) trajPred riskPred = Except.error () ∧
    ∃ p, predictCore hashFn n (Except.ok (m, s)) trajPred riskPred = Except.ok p ∧
      (trajPred = some (Except.error ()) →
        p.trajectory_mean = none ∧ p.trajectory_std = none) ∧
      (riskPred = some (Except.error ()) →
        p.suggested_sl = none ∧ p.suggested_tp = none) := by
  refine ⟨rfl, ⟨_, rfl, ?_, ?_⟩⟩
  · rintro rfl
    exact ⟨rfl, rfl⟩
  · rintro rfl
    exact ⟨rfl, rfl⟩

theorem C6_secondary_failures_degrade_witness :
    predictCore (fun _ _ => 0) 10 (Except.error ())
      (some (Except.error ())) (some (Except.error ())) = Except.error () ∧
    ∃ p, predictCore (fun _ _ => 0) 10 (Except.ok (1, 2))
        (some (Except.error ())) (some (Except.error ())) = Except.ok p ∧
      p.trajectory_mean = none ∧ p.suggested_sl = none ∧ p.suggested_tp = none := by
  obtain ⟨h1, p, h2, h3, h4⟩ :=
    C6_secondary_failures_degrade (fun _ _ => 0) 10 1 2
      (some (Except.error ())) (some (Except.error ()))
  exact ⟨h1, p, h2, (h3 rfl).1, (h4 rfl).1, (h4 rfl).2⟩

/-- C10: when `train_model` is called for an already-initialized key and an
attempted fit raises (so it returns `False`), no files are written and the
model entry keeps all of its previous fields (`trained`, `last_updated`,
`sample_count`), but the stored scaler has already been refit to the new
feature matrix and is not restored. -/
theorem C10_failed_retrain_frame (st : GPState) (key : String)
    (features : List (List ℚ)) (hasTraj hasRisk : Bool) (fits : ServerFits)
    (now : Nat) (e : Bundle) (hinit : st.models key = some e)
    (hfail : fits.pnlOk = false ∨ (hasTraj = true ∧ fits.trajOk = false)
      ∨ (hasRisk = true ∧ fits.riskOk = false)) :
    (train_model st key features hasTraj hasRisk fits now).2 = false ∧
    (train_model st key features hasTraj hasRisk fits now).1.files = st.files ∧
    (train_model st key features hasTraj hasRisk fits now).1.models key = some e ∧
    (train_model st key features hasTraj hasRisk fits now).1.scalers key
      = some (fitScaler features) := by
  have hOne : initModel st key = st := by
    unfold initModel
    rw [hinit]
  rw [train_model_fail st key features hasTraj hasRisk fits now hfail, hOne]
  refine ⟨rfl, rfl, hinit, ?_⟩
  simp

theorem C10_failed_retrain_frame_witness :
    (train_model ⟨fun _ => some freshBundle, fun _ => some ScalerSt.unfitted, []⟩
        "MGC_long" [[1, 2]] true true ⟨false, true, true⟩ 3).2 = false ∧
    (train_model ⟨fun _ => some freshBundle, fun _ => some ScalerSt.unfitted, []⟩
        "MGC_long" [[1, 2]] true true ⟨false, true, true⟩ 3).1.files = ([] : List String) ∧
    (train_model ⟨fun _ => some freshBundle, fun _ => some ScalerSt.unfitted, []⟩
        "MGC_long" [[1, 2]] true true ⟨false, true, true⟩ 3).1.models "MGC_long"
      = some freshBundle ∧
    (train_model ⟨fun _ => some freshBundle, fun _ => some ScalerSt.unfitted, []⟩
        "MGC_long" [[1, 2]] true true ⟨false, true, true⟩ 3).1.scalers "MGC_long"
      = some (fitScaler [[1, 2]]) :=
  C10_failed_retrain_frame _ "MGC_long" [[1, 2]] true true ⟨false, true, true⟩ 3
    freshBundle rfl (Or.inl rfl)

theorem C8_monotone_within_band_witness :
    (0 : ℚ) ≤ 21 ∧ (21 : ℚ) ≤ 25 ∧ ((20 : ℚ) ≤ 21 ∧ (25 : ℚ) < 50) ∧
    calculate_confidence (fun _ _ => 7) 25 0 (some 50) ≤
      calculate_confidence (fun _ _ => 7) 21 0 (some 50) :=
  ⟨by norm_num, by norm_num, ⟨by norm_num, by norm_num⟩,
   C8_monotone_within_band (fun _ _ => 7) (some 50) 21 25 (by norm_num) (by norm_num)
     (Or.inr (Or.inl ⟨by norm_num, by norm_num⟩)) rfl⟩

end FluidJournal
